import Mathlib

/-!
Verification development for the Tripo3D image-to-3D backend
(src/backend/main.py).  The Python code is shallowly embedded: JSON
bodies become the inductive `JVal`, the remote network is an explicit
event parameter (`RemoteEvent`), the in-memory `task_storage` dict is an
association list (`Store`), and each handler / client method becomes an
executable Lean function mirroring the source line by line.
-/

/-- JSON values, as produced by Python response.json(). -/
inductive JVal where
  | jstr : String → JVal
  | jnum : Int → JVal
  | jbool : Bool → JVal
  | jnull : JVal
  | jarr : List JVal → JVal
  | jobj : List (String × JVal) → JVal

/-- First-match lookup in a JSON object field list (Python dict lookup;
dicts returned by json parsing have unique keys). -/
def lookupJ : List (String × JVal) → String → Option JVal
  | [], _ => none
  | (k, v) :: rest, key => if k = key then some v else lookupJ rest key

/-- Python dict .get(key): some value when present, none otherwise;
none on a non-object (the code only reaches this on objects). -/
def jGetOpt (v : JVal) (key : String) : Option JVal :=
  match v with
  | .jobj fields => lookupJ fields key
  | _ => none

/-- Python membership test key in v for an object; false otherwise. -/
def jHasKey (v : JVal) (key : String) : Bool :=
  match v with
  | .jobj fields => (lookupJ fields key).isSome
  | _ => false

/-- Task status enumeration (class TaskStatus, main.py lines 28-32). -/
inductive TaskStatus where
  | queued
  | running
  | success
  | failed
deriving DecidableEq

/-- TaskStatus(value) on a JSON value: only the four string values are
accepted, anything else raises ValueError (modelled as none). -/
def taskStatusOf : JVal → Option TaskStatus
  | .jstr "queued" => some .queued
  | .jstr "running" => some .running
  | .jstr "success" => some .success
  | .jstr "failed" => some .failed
  | _ => none

/-- status in [TaskStatus.SUCCESS, TaskStatus.FAILED] (line 510). -/
def isTerminal : TaskStatus → Bool
  | .success => true
  | .failed => true
  | _ => false

/-- Pydantic model TaskResponse (main.py lines 40-46).  The optional
payload fields are kept as raw JSON values. -/
structure TaskResponse where
  task_id : String
  status : TaskStatus
  input : Option JVal
  output : Option JVal
  progress : Option JVal
  created_time : Option JVal

/-- Detail payloads of the HTTPExceptions raised by the code; each
constructor corresponds to one raise site and carries the data echoed
into the detail string there. -/
inductive Detail where
  | noToken (payload : JVal)
  | uploadFailed (status : Nat) (body : JVal)
  | badTaskStatusFormat (payload : JVal)
  | statusCheckFailed (status : Nat) (body : JVal)
  | taskNotCompleted (st : TaskStatus)
  | modelNotFound
  | formatNotAvailable (fmt : String) (available : List String)
  | notConfigured
  | badContentType (ct : Option String)
  | fileTooLarge
  | emptyFile
  | timeoutDetail
  | transportError
  | internalError

/-- Exceptions escaping the client methods: HTTPException with a status
code and detail, or a plain Python error (ValueError from TaskStatus,
KeyError / TypeError from subscripting). -/
inductive ClientError where
  | httpExc (status : Nat) (detail : Detail)
  | valueError
  | keyError (k : String)
  | typeError

/-- Python v[key]: value when v is an object containing the key,
KeyError when the key is absent, TypeError on a non-object. -/
def jIndex (v : JVal) (key : String) : Except ClientError JVal :=
  match v with
  | .jobj fields =>
    match lookupJ fields key with
    | some x => .ok x
    | none => .error (.keyError key)
  | _ => .error .typeError

/-- Body of Tripo3DClient.get_task_status after the data object has
been found (main.py lines 280-289): read data["status"] (KeyError /
TypeError if impossible), map it through TaskStatus (ValueError on an
unrecognized value), then build the snapshot with task_id set to the
requested id and the optional fields read with .get. -/
def parseTaskData (tid : String) (data : JVal) : Except ClientError TaskResponse :=
  match jIndex data "status" with
  | .error e => .error e
  | .ok sv =>
    match taskStatusOf sv with
    | none => .error .valueError
    | some st =>
      .ok { task_id := tid
          , status := st
          , input := jGetOpt data "input"
          , output := jGetOpt data "output"
          , progress := jGetOpt data "progress"
          , created_time := jGetOpt data "created_time" }

/-- Tripo3DClient.get_task_status on a 200 body (main.py lines 272-289):
a body without a data key is a hard 500 echoing the payload, otherwise
the data object is parsed. -/
def parseTaskStatusResponse (tid : String) (body : JVal) : Except ClientError TaskResponse :=
  match body with
  | .jobj fields =>
    match lookupJ fields "data" with
    | none => .error (.httpExc 500 (.badTaskStatusFormat body))
    | some data => parseTaskData tid data
  | _ => .error (.httpExc 500 (.badTaskStatusFormat body))

/-- One remote interaction as observed by a single client call: an HTTP
response with status code and JSON body, a timeout, or a transport
error. -/
inductive RemoteEvent where
  | resp (status : Nat) (body : JVal)
  | timeout
  | netErr

/-- Tripo3DClient.get_task_status (main.py lines 254-294): timeout maps
to 408, transport errors to 500, a non-200 response propagates the
remote status code and body, a 200 response is parsed. -/
def get_task_status (tid : String) (ev : RemoteEvent) : Except ClientError TaskResponse :=
  match ev with
  | .timeout => .error (.httpExc 408 .timeoutDetail)
  | .netErr => .error (.httpExc 500 .transportError)
  | .resp code body =>
    if code = 200 then parseTaskStatusResponse tid body
    else .error (.httpExc code (.statusCheckFailed code body))

/-- Token extraction of Tripo3DClient.upload_image on a 200 body
(main.py lines 152-173).  When a data key is present: probe
data["image_token"], data["token"], data["file_token"] in order if data
is a dict, or return data itself if it is a string, else raise the 500
no-token error.  Only when no data key exists are the top-level token
and image_token keys consulted. -/
def extractUploadToken (result : JVal) : Except ClientError JVal :=
  match result with
  | .jobj fields =>
    match lookupJ fields "data" with
    | some (.jobj dfields) =>
      match lookupJ dfields "image_token" with
      | some v => .ok v
      | none =>
        match lookupJ dfields "token" with
        | some v => .ok v
        | none =>
          match lookupJ dfields "file_token" with
          | some v => .ok v
          | none => .error (.httpExc 500 (.noToken result))
    | some (.jstr s) => .ok (.jstr s)
    | some _ => .error (.httpExc 500 (.noToken result))
    | none =>
      match lookupJ fields "token" with
      | some v => .ok v
      | none =>
        match lookupJ fields "image_token" with
        | some v => .ok v
        | none => .error (.httpExc 500 (.noToken result))
  | _ => .error (.httpExc 500 (.noToken result))

/-- Probe of a nested data key location, following the words of the
specification for claim C1. -/
def probeData (result : JVal) (key : String) : Option JVal :=
  match jGetOpt result "data" with
  | some d => jGetOpt d key
  | none => none

/-- Modelled from the spec: the token location probe exactly as the
specification words it for claim C1 — six locations tried in a fixed
priority order (data.image_token, data.token, data.file_token, a
string-valued data, top-level token, top-level image_token), the first
match returned.  Written from the spec sentence, to be compared with
extractUploadToken, which is translated from the source. -/
def claimSixLocationProbe (result : JVal) : Option JVal :=
  match probeData result "image_token" with
  | some v => some v
  | none =>
    match probeData result "token" with
    | some v => some v
    | none =>
      match probeData result "file_token" with
      | some v => some v
      | none =>
        match jGetOpt result "data" with
        | some (.jstr s) => some (.jstr s)
        | _ =>
          match jGetOpt result "token" with
          | some v => some v
          | none => jGetOpt result "image_token"

/-- The in-memory task_storage dict (main.py line 74), embedded as an
association list where the most recent write for a key shadows older
entries (Python dict assignment, read through lookupStore). -/
abbrev Store : Type := List (String × TaskResponse)

/-- task_storage[task_id] = snapshot. -/
def storePut (s : Store) (k : String) (v : TaskResponse) : Store :=
  (k, v) :: s

/-- task_storage.get(task_id): the most recent write wins. -/
def lookupStore : Store → String → Option TaskResponse
  | [], _ => none
  | (k, v) :: rest, key => if k = key then some v else lookupStore rest key

/-- Handler-level translation of exceptions (the except blocks of the
endpoint functions): HTTPExceptions are re-raised as-is, any other
exception becomes a 500 with str(e) as detail. -/
def handlerTranslate : ClientError → ClientError
  | .httpExc s d => .httpExc s d
  | _ => .httpExc 500 .internalError

/-- Endpoint GET /task/{task_id} (main.py lines 416-439): fetch fresh
from the remote service, overwrite the stored snapshot on success, and
return the snapshot (errors translated by the except blocks). -/
def get_task_status_endpoint (tid : String) (ev : RemoteEvent) (store : Store) :
    Store × Except ClientError TaskResponse :=
  match get_task_status tid ev with
  | .ok r => (storePut store tid r, .ok r)
  | .error e => (store, .error (handlerTranslate e))

/-- Loop body of monitor_task_progress (main.py lines 495-523).
fuel is the remaining attempt budget (max_attempts - attempt), i the
index of the next remote interaction, cfg whether tripo3d_client is
configured.  Returns the final storage together with the number of
status queries issued.  Each iteration: break when the client is gone;
otherwise query once — on success store the snapshot and break if it is
terminal, on any exception store nothing — then sleep and consume one
attempt. -/
def monitorLoop (cfg : Bool) (tid : String) (evs : Nat → RemoteEvent) :
    Nat → Nat → Store → Store × Nat
  | 0, _, store => (store, 0)
  | fuel + 1, i, store =>
    if cfg then
      match get_task_status tid (evs i) with
      | .ok r =>
        let stored := storePut store tid r
        if isTerminal r.status then (stored, 1)
        else
          let rest := monitorLoop cfg tid evs fuel (i + 1) stored
          (rest.1, rest.2 + 1)
      | .error _ =>
        let rest := monitorLoop cfg tid evs fuel (i + 1) store
        (rest.1, rest.2 + 1)
    else (store, 0)

/-- monitor_task_progress with max_attempts = 120 (main.py line 497). -/
def monitor_task_progress (cfg : Bool) (tid : String) (evs : Nat → RemoteEvent)
    (store : Store) : Store × Nat :=
  monitorLoop cfg tid evs 120 0 store

/-- Specification-side fold for the exhaustion case: apply, in order,
exactly the writes of each observed poll outcome (successful polls
overwrite the snapshot, failed polls write nothing). -/
def pollWrite (tid : String) (store : Store) (o : Except ClientError TaskResponse) : Store :=
  match o with
  | .ok r => storePut store tid r
  | .error _ => store

/-- Fold pollWrite over fuel consecutive remote interactions starting
at index i. -/
def applyPolls (tid : String) (evs : Nat → RemoteEvent) : Nat → Nat → Store → Store
  | _, 0, store => store
  | i, fuel + 1, store =>
    applyPolls tid evs (i + 1) fuel (pollWrite tid store (get_task_status tid (evs i)))

/-- Whether the outcome of one status query is a snapshot with a
terminal status; an exception never is. -/
def isTerminalOutcome : Except ClientError TaskResponse → Bool
  | .ok r => isTerminal r.status
  | .error _ => false

/-- Pydantic model ImageTo3DRequest (main.py lines 34-38). -/
structure ImageTo3DRequest where
  model_version : Option String
  style : Option String
  texture_resolution : Option Int
  remesh : Option String
deriving DecidableEq

/-- Parameter construction in convert_image_to_3d (main.py lines
377-383): style is mapped through the Python truthiness test
style if style and style != "none" else None, while model_version,
texture_resolution and remesh are passed through unchanged. -/
def convert_request_params (model_version : String) (style : Option String)
    (texture_resolution : Int) (remesh : String) : ImageTo3DRequest :=
  { model_version := some model_version
  , style :=
      match style with
      | none => none
      | some s => if s = "" ∨ s = "none" then none else some s
  , texture_resolution := some texture_resolution
  , remesh := some remesh }

/-- The extra object built by Tripo3DClient.create_task (main.py lines
201-209): each field is included only when truthy, and style / remesh
additionally only when different from the sentinel "none". -/
def create_task_extra (p : ImageTo3DRequest) : List (String × JVal) :=
  (match p.model_version with
   | some s => if s = "" then [] else [("model_version", JVal.jstr s)]
   | none => [])
  ++ (match p.style with
      | some s => if s = "" ∨ s = "none" then [] else [("style", JVal.jstr s)]
      | none => [])
  ++ (match p.texture_resolution with
      | some n => if n = 0 then [] else [("texture_resolution", JVal.jnum n)]
      | none => [])
  ++ (match p.remesh with
      | some s => if s = "" ∨ s = "none" then [] else [("remesh", JVal.jstr s)]
      | none => [])

/-- Content-type validation of convert_image_to_3d (main.py line 355):
accepted only when present, non-empty and starting with image/. -/
def contentTypeOk : Option String → Bool
  | none => false
  | some s => !(s = "") && s.startsWith "image/"

/-- Size check of convert_image_to_3d (main.py line 362): Python
if file.size and file.size > 10 * 1024 * 1024 — the declared size must
be present, truthy (non-zero) and above the limit to reject. -/
def size_check_rejects (size : Option Nat) : Bool :=
  match size with
  | none => false
  | some n => !(n = 0) && decide (n > 10 * 1024 * 1024)

/-- Validation prefix of convert_image_to_3d (main.py lines 348-373):
missing credential, bad content type, declared size above 10MB, empty
body — in that order. -/
def convert_image_to_3d_validate (clientConfigured : Bool) (content_type : Option String)
    (size : Option Nat) (bodyLen : Nat) : Except ClientError Unit :=
  if clientConfigured = false then .error (.httpExc 500 .notConfigured)
  else if contentTypeOk content_type = false then
    .error (.httpExc 400 (.badContentType content_type))
  else if size_check_rejects size then .error (.httpExc 400 .fileTooLarge)
  else if bodyLen = 0 then .error (.httpExc 400 .emptyFile)
  else .ok ()

/-- Recognizer for the 10MB rejection among the validation outcomes. -/
def isSizeRejection : Except ClientError Unit → Bool
  | .error (.httpExc 400 .fileTooLarge) => true
  | _ => false

/-- Initial snapshot stored by convert_image_to_3d after task creation
(main.py lines 394-399). -/
def submitSnapshot (tid : String) (now : Int) : TaskResponse :=
  { task_id := tid
  , status := .queued
  , input := none
  , output := none
  , progress := none
  , created_time := some (.jnum now) }

/-- One write source against task_storage: the submit handler, the
synchronous status endpoint, or a full background poller run. -/
inductive TrackerOp where
  | submit (tid : String) (now : Int)
  | statusEndpoint (tid : String) (ev : RemoteEvent)
  | backgroundPoll (tid : String) (evs : Nat → RemoteEvent)

/-- Effect of one operation on task_storage. -/
def applyTrackerOp (store : Store) : TrackerOp → Store
  | .submit tid now => storePut store tid (submitSnapshot tid now)
  | .statusEndpoint tid ev => (get_task_status_endpoint tid ev store).1
  | .backgroundPoll tid evs => (monitor_task_progress true tid evs store).1

/-- Effect of a sequence of operations on task_storage. -/
def applyTrackerOps (ops : List TrackerOp) (store : Store) : Store :=
  ops.foldl applyTrackerOp store

/-- Invariant of claim C10: every entry of the storage was written
under its own snapshot's task id. -/
def storeInv (s : Store) : Prop := ∀ p ∈ s, p.2.task_id = p.1

/-- PIL color modes relevant to the code (main.py lines 81-95). -/
inductive ImgMode where
  | RGB
  | RGBA
  | P
  | L
  | LA
  | other
deriving DecidableEq

/-- Decoded PIL image, tracked by dimensions, mode and whether its info
dict carries a transparency entry.  Pixel contents are outside the
scope of the verified properties. -/
structure PilImage where
  width : Nat
  height : Nat
  mode : ImgMode
  transparencyInfo : Bool
deriving DecidableEq

/-- Exceptions raised by the PIL operations. -/
inductive PilErr where
  | cannotIdentify
  | saveError
deriving DecidableEq

/-- The PIL operations the code calls that are outside this repository:
decoding bytes into an image (Image.open) and JPEG encoding at a given
quality (img.save); either may raise. -/
structure PilOps where
  decode : List Nat → Except PilErr PilImage
  encode : PilImage → Nat → Except PilErr (List Nat)

/-- Mode conversion of optimize_image_for_upload (main.py lines 81-95):
RGBA / P / LA images are flattened (composited onto a white RGB
background or converted), and any mode other than RGB / L is converted
to RGB; dimensions are unchanged. -/
def modeConvertStep (img : PilImage) : PilImage :=
  if img.mode = .RGBA ∨ img.mode = .P ∨ img.mode = .LA then
    { img with mode := .RGB }
  else if img.mode = .RGB ∨ img.mode = .L then img
  else { img with mode := .RGB }

/-- Round num / den to the nearest integer, ties towards the floor.
Helper for thumbnailDims. -/
def roundNearestDiv (num den : Nat) : Nat :=
  if 2 * (num % den) ≤ den then num / den else num / den + 1

/-- Modelled from the spec: the dimensions produced by PIL
Image.thumbnail((maxs, maxs)), which is external library code.  Per the
spec (section 4.1) the downscale preserves the aspect ratio so that
neither dimension exceeds the maximum: the image is left alone when it
already fits, otherwise the larger side becomes maxs and the smaller
side is scaled by the same factor, rounded to the nearest integer and
clamped to at least 1. -/
def thumbnailDims (w h maxs : Nat) : Nat × Nat :=
  if w ≤ maxs ∧ h ≤ maxs then (w, h)
  else if w ≤ h then (max 1 (roundNearestDiv (w * maxs) h), maxs)
  else (maxs, max 1 (roundNearestDiv (h * maxs) w))

/-- Resize step of optimize_image_for_upload (main.py lines 97-99):
thumbnail is invoked only when the larger dimension exceeds max_size. -/
def resizeStep (img : PilImage) (max_size : Nat) : PilImage :=
  if max img.width img.height > max_size then
    { img with
      width := (thumbnailDims img.width img.height max_size).1
      height := (thumbnailDims img.width img.height max_size).2 }
  else img

/-- The in-memory transform of optimize_image_for_upload before
encoding: mode conversion followed by the bounded resize. -/
def normalizedImage (img : PilImage) (max_size : Nat) : PilImage :=
  resizeStep (modeConvertStep img) max_size

/-- Body of the try block of optimize_image_for_upload (main.py lines
78-111): decode, normalize, encode at quality 85, and re-encode once at
quality 70 if the result exceeds 5MB, accepting that result regardless
of its size. -/
def optimizeCore (ops : PilOps) (image_data : List Nat) (max_size : Nat) :
    Except PilErr (List Nat) :=
  match ops.decode image_data with
  | .error e => .error e
  | .ok img =>
    let norm := normalizedImage img max_size
    match ops.encode norm 85 with
    | .error e => .error e
    | .ok out =>
      if out.length > 5 * 1024 * 1024 then ops.encode norm 70
      else .ok out

/-- optimize_image_for_upload (main.py lines 76-115): any exception in
the try block falls back to returning the original bytes unchanged. -/
def optimize_image_for_upload (ops : PilOps) (image_data : List Nat)
    (max_size : Nat) : List Nat :=
  match optimizeCore ops image_data max_size with
  | .ok result => result
  | .error _ => image_data

/-- Endpoint GET /task/{task_id}/download (main.py lines 441-493):
fetch a fresh status; 400 naming the current status unless success;
404 when the output is missing or holds no model entry; otherwise read
output["model"]["urls"] (failures there become 500 via the generic
except block) and either 400 listing the available formats or the
download url together with the local filename task_id.format. -/
def download_3d_model (tid : String) (fmt : String) (ev : RemoteEvent) :
    Except ClientError (JVal × String) :=
  match get_task_status tid ev with
  | .error e => .error (handlerTranslate e)
  | .ok tr =>
    if tr.status = .success then
      match tr.output with
      | none => .error (.httpExc 404 .modelNotFound)
      | some out =>
        if jHasKey out "model" then
          match jIndex out "model" with
          | .error e => .error (handlerTranslate e)
          | .ok m =>
            match jIndex m "urls" with
            | .error e => .error (handlerTranslate e)
            | .ok urls =>
              match urls with
              | .jobj ufields =>
                match lookupJ ufields fmt with
                | none =>
                  .error (.httpExc 400
                    (.formatNotAvailable fmt (ufields.map (fun p => p.1))))
                | some u => .ok (u, tid ++ "." ++ fmt)
              | _ => .error (handlerTranslate .typeError)
        else .error (.httpExc 404 .modelNotFound)
    else .error (.httpExc 400 (.taskNotCompleted tr.status))

theorem lookupJ_append (xs ys : List (String × JVal)) (k : String) :
    lookupJ (xs ++ ys) k =
      match lookupJ xs k with
      | some v => some v
      | none => lookupJ ys k := by
  induction xs with
  | nil => rfl
  | cons p rest ih =>
    obtain ⟨a, b⟩ := p
    simp only [List.cons_append, lookupJ]
    split
    · rfl
    · exact ih

/-- C1 counterexample: on the 200 body with both a data object lacking
every token key and a top-level token, the claimed six-location probe
finds the top-level token, but upload_image raises the 500 no-token
error instead of returning it — top-level keys are only consulted when
the data key is absent. -/
theorem upload_token_six_location_claim_false :
    claimSixLocationProbe (.jobj [("data", .jobj []), ("token", .jstr "tok")]) =
      some (.jstr "tok") ∧
    extractUploadToken (.jobj [("data", .jobj []), ("token", .jstr "tok")]) =
      .error (.httpExc 500
        (.noToken (.jobj [("data", .jobj []), ("token", .jstr "tok")]))) := by
  exact ⟨rfl, rfl⟩

/-- C1 amended: upload_image extracts the token from data.image_token,
data.token, data.file_token in priority order, or from a string-valued
data; the top-level token and image_token locations are probed, in that
order, only when the response has no data key at all; when the
applicable probes all miss, a 500 echoing the payload is raised — in
particular a data object without any token key raises even when a
top-level token exists. -/
theorem upload_token_extraction (fields dfields : List (String × JVal)) :
    (∀ v, lookupJ fields "data" = some (.jobj dfields) →
      lookupJ dfields "image_token" = some v →
      extractUploadToken (.jobj fields) = .ok v) ∧
    (∀ v, lookupJ fields "data" = some (.jobj dfields) →
      lookupJ dfields "image_token" = none → lookupJ dfields "token" = some v →
      extractUploadToken (.jobj fields) = .ok v) ∧
    (∀ v, lookupJ fields "data" = some (.jobj dfields) →
      lookupJ dfields "image_token" = none → lookupJ dfields "token" = none →
      lookupJ dfields "file_token" = some v →
      extractUploadToken (.jobj fields) = .ok v) ∧
    (∀ s, lookupJ fields "data" = some (.jstr s) →
      extractUploadToken (.jobj fields) = .ok (.jstr s)) ∧
    (lookupJ fields "data" = some (.jobj dfields) →
      lookupJ dfields "image_token" = none → lookupJ dfields "token" = none →
      lookupJ dfields "file_token" = none →
      extractUploadToken (.jobj fields) =
        .error (.httpExc 500 (.noToken (.jobj fields)))) ∧
    (∀ v, lookupJ fields "data" = none → lookupJ fields "token" = some v →
      extractUploadToken (.jobj fields) = .ok v) ∧
    (∀ v, lookupJ fields "data" = none → lookupJ fields "token" = none →
      lookupJ fields "image_token" = some v →
      extractUploadToken (.jobj fields) = .ok v) ∧
    (lookupJ fields "data" = none → lookupJ fields "token" = none →
      lookupJ fields "image_token" = none →
      extractUploadToken (.jobj fields) =
        .error (.httpExc 500 (.noToken (.jobj fields)))) := by
  refine ⟨?_, ?_, ?_, ?_, ?_, ?_, ?_, ?_⟩
  · intro v h1 h2; simp [extractUploadToken, h1, h2]
  · intro v h1 h2 h3; simp [extractUploadToken, h1, h2, h3]
  · intro v h1 h2 h3 h4; simp [extractUploadToken, h1, h2, h3, h4]
  · intro s h1; simp [extractUploadToken, h1]
  · intro h1 h2 h3 h4; simp [extractUploadToken, h1, h2, h3, h4]
  · intro v h1 h2; simp [extractUploadToken, h1, h2]
  · intro v h1 h2 h3; simp [extractUploadToken, h1, h2, h3]
  · intro h1 h2 h3; simp [extractUploadToken, h1, h2, h3]

theorem upload_token_extraction_witness :
    extractUploadToken (.jobj [("data", .jobj [("k", .jbool true)]), ("token", .jstr "tok")]) =
      .error (.httpExc 500
        (.noToken (.jobj [("data", .jobj [("k", .jbool true)]), ("token", .jstr "tok")]))) ∧
    extractUploadToken (.jobj [("token", .jstr "tok")]) = .ok (.jstr "tok") := by
  constructor
  · exact (upload_token_extraction
      [("data", .jobj [("k", .jbool true)]), ("token", .jstr "tok")]
      [("k", .jbool true)]).2.2.2.2.1 rfl rfl rfl rfl
  · exact (upload_token_extraction [("token", .jstr "tok")] []).2.2.2.2.2.1
      (.jstr "tok") rfl rfl

/-- C8: on a 200 status response whose object body has no data key,
get_task_status raises the 500 malformed-response error echoing the
payload; and when data.status holds a value outside the four-member
enumeration, get_task_status raises ValueError instead of passing the
value through. -/
theorem get_task_status_strict (tid : String) (fields : List (String × JVal)) :
    (lookupJ fields "data" = none →
      get_task_status tid (.resp 200 (.jobj fields)) =
        .error (.httpExc 500 (.badTaskStatusFormat (.jobj fields)))) ∧
    (∀ data sv, lookupJ fields "data" = some data →
      jIndex data "status" = .ok sv → taskStatusOf sv = none →
      get_task_status tid (.resp 200 (.jobj fields)) = .error .valueError) := by
  constructor
  · intro h
    simp [get_task_status, parseTaskStatusResponse, h]
  · intro data sv h1 h2 h3
    simp [get_task_status, parseTaskStatusResponse, parseTaskData, h1, h2, h3]

theorem get_task_status_strict_witness :
    get_task_status "t1" (.resp 200 (.jobj [("code", .jnum 0)])) =
      .error (.httpExc 500 (.badTaskStatusFormat (.jobj [("code", .jnum 0)]))) ∧
    get_task_status "t1" (.resp 200 (.jobj [("data", .jobj [("status", .jstr "done")])])) =
      .error .valueError := by
  constructor
  · exact (get_task_status_strict "t1" [("code", .jnum 0)]).1 rfl
  · exact (get_task_status_strict "t1" [("data", .jobj [("status", .jstr "done")])]).2
      (.jobj [("status", .jstr "done")]) (.jstr "done") rfl rfl rfl

/-- C9: the 10MB limit of the submit endpoint is enforced only on a
truthy declared size — with a missing (None) or zero declared size the
size branch is skipped and no request is rejected for size, whatever
the actual body length. -/
theorem convert_size_limit_skipped (cc : Bool) (ct : Option String) (bodyLen : Nat) :
    isSizeRejection (convert_image_to_3d_validate cc ct none bodyLen) = false ∧
    isSizeRejection (convert_image_to_3d_validate cc ct (some 0) bodyLen) = false := by
  unfold convert_image_to_3d_validate
  constructor <;>
  · split
    · rfl
    · split
      · rfl
      · simp only [size_check_rejects, decide_eq_true_eq, Bool.not_eq_true]
        rw [if_neg (by simp)]
        split <;> rfl

/-- C3 counterexample: with style "none" and remesh "none" the
parameters object built by the submit handler has its style unset but
keeps remesh = "none" verbatim, so the remesh sentinel is not mapped to
an unset field there. -/
theorem convert_params_remesh_sentinel_not_unset :
    (convert_request_params "v2.0-20240919" (some "none") 1024 "none").style = none ∧
    (convert_request_params "v2.0-20240919" (some "none") 1024 "none").remesh =
      some "none" := by
  exact ⟨rfl, rfl⟩

/-- C3 amended: the submit handler maps the style "none" (or empty)
sentinel to an unset field when constructing the parameters object, but
stores remesh verbatim, "none" included; the remesh sentinel is mapped
to unset only later, when create_task builds the extra payload, from
which both sentinels are omitted. -/
theorem convert_params_none_sentinels (mv : String) (style : Option String)
    (tres : Int) (remesh : String) :
    (convert_request_params mv (some "none") tres remesh).style = none ∧
    (convert_request_params mv (some "") tres remesh).style = none ∧
    (convert_request_params mv style tres "none").remesh = some "none" ∧
    lookupJ (create_task_extra (convert_request_params mv style tres "none"))
      "remesh" = none ∧
    lookupJ (create_task_extra (convert_request_params mv (some "none") tres remesh))
      "style" = none := by
  refine ⟨rfl, rfl, rfl, ?_, ?_⟩
  · rcases style with _ | s <;>
      simp only [create_task_extra, convert_request_params, lookupJ_append] <;>
      split_ifs <;> simp_all [lookupJ]
  · simp only [create_task_extra, convert_request_params, lookupJ_append]
    split_ifs <;> simp_all [lookupJ]

theorem roundNearestDiv_le (w ms h : Nat) (hh : 0 < h) (hwh : w ≤ h) (hm : 0 < ms) :
    roundNearestDiv (w * ms) h ≤ ms := by
  unfold roundNearestDiv
  split
  · calc w * ms / h ≤ h * ms / h := Nat.div_le_div_right (Nat.mul_le_mul_right ms hwh)
      _ = ms := Nat.mul_div_cancel_left ms hh
  · rename_i hgt
    push_neg at hgt
    have hr : 0 < w * ms % h := by omega
    have hwlt : w < h := by
      rcases Nat.lt_or_ge w h with h1 | h1
      · exact h1
      · have hwe : w = h := le_antisymm hwh h1
        subst hwe
        rw [Nat.mul_mod_right] at hr
        exact absurd hr (lt_irrefl 0)
    have h2 : w * ms < ms * h := by
      calc w * ms < h * ms := mul_lt_mul_of_pos_right hwlt hm
        _ = ms * h := Nat.mul_comm h ms
    exact Nat.succ_le_of_lt ((Nat.div_lt_iff_lt_mul hh).mpr h2)

theorem roundNearestDiv_bounds (num den : Nat) (hden : 0 < den) :
    roundNearestDiv num den * den ≤ num + den ∧
    num ≤ roundNearestDiv num den * den + den := by
  have hdm : den * (num / den) + num % den = num := Nat.div_add_mod num den
  rw [Nat.mul_comm den (num / den)] at hdm
  have hmlt : num % den < den := Nat.mod_lt _ hden
  have hfl : num / den * den ≤ num := Nat.div_mul_le_self _ _
  unfold roundNearestDiv
  split
  · exact ⟨le_trans hfl (Nat.le_add_right _ _), by linarith⟩
  · have hs : (num / den + 1) * den = num / den * den + den := by ring
    rw [hs]
    constructor <;> linarith

theorem thumbBranch (w h ms : Nat) (hh : 0 < h) (hm : 0 < ms) (hwh : w ≤ h) :
    max 1 (roundNearestDiv (w * ms) h) ≤ ms ∧
    max 1 (roundNearestDiv (w * ms) h) * h ≤ w * ms + h ∧
    w * ms ≤ max 1 (roundNearestDiv (w * ms) h) * h + h := by
  have hRle := roundNearestDiv_le w ms h hh hwh hm
  have hb := roundNearestDiv_bounds (w * ms) h hh
  refine ⟨max_le hm hRle, ?_, ?_⟩
  · rcases Nat.eq_zero_or_pos (roundNearestDiv (w * ms) h) with h0 | hpos
    · rw [h0]
      simp
    · rw [max_eq_right hpos]
      exact hb.1
  · have hmono : roundNearestDiv (w * ms) h * h ≤ max 1 (roundNearestDiv (w * ms) h) * h :=
      Nat.mul_le_mul_right h (le_max_right 1 _)
    linarith [hb.2]

theorem modeConvertStep_dims (img : PilImage) :
    (modeConvertStep img).width = img.width ∧
    (modeConvertStep img).height = img.height := by
  unfold modeConvertStep
  split_ifs <;> simp

/-- C6: whenever the decoded image's larger dimension exceeds the
configured maximum, the normalized image's larger dimension is at most
the maximum and the aspect ratio is preserved within one rounding unit
(cross-multiplied bounds); an image already within the maximum keeps
its dimensions. -/
theorem optimize_resize_policy (img : PilImage) (ms : Nat)
    (hw : 0 < img.width) (hh : 0 < img.height) (hm : 0 < ms) :
    (ms < max img.width img.height →
      max (normalizedImage img ms).width (normalizedImage img ms).height ≤ ms ∧
      (normalizedImage img ms).width * img.height ≤
        img.width * (normalizedImage img ms).height + max img.width img.height ∧
      img.width * (normalizedImage img ms).height ≤
        (normalizedImage img ms).width * img.height + max img.width img.height) ∧
    (max img.width img.height ≤ ms →
      (normalizedImage img ms).width = img.width ∧
      (normalizedImage img ms).height = img.height) := by
  obtain ⟨hwd, hhd⟩ := modeConvertStep_dims img
  unfold normalizedImage resizeStep
  rw [hwd, hhd]
  constructor
  · intro hbig
    rw [if_pos hbig]
    have hnot : ¬(img.width ≤ ms ∧ img.height ≤ ms) := by
      rcases max_cases img.width img.height with ⟨he, _⟩ | ⟨he, _⟩ <;> omega
    by_cases hwh : img.width ≤ img.height
    · have hdims : thumbnailDims img.width img.height ms =
          (max 1 (roundNearestDiv (img.width * ms) img.height), ms) := by
        unfold thumbnailDims
        rw [if_neg hnot, if_pos hwh]
      have hbr := thumbBranch img.width img.height ms hh hm hwh
      have hmax : max img.width img.height = img.height := max_eq_right hwh
      simp only [hdims, hmax]
      refine ⟨max_le hbr.1 (le_refl ms), ?_, ?_⟩
      · calc max 1 (roundNearestDiv (img.width * ms) img.height) * img.height ≤
              img.width * ms + img.height := hbr.2.1
          _ = img.width * ms + img.height := rfl
      · exact hbr.2.2
    · push_neg at hwh
      have hdims : thumbnailDims img.width img.height ms =
          (ms, max 1 (roundNearestDiv (img.height * ms) img.width)) := by
        unfold thumbnailDims
        rw [if_neg hnot, if_neg (by omega)]
      have hbr := thumbBranch img.height img.width ms hw hm (le_of_lt hwh)
      have hmax : max img.width img.height = img.width := max_eq_left (le_of_lt hwh)
      simp only [hdims, hmax]
      refine ⟨max_le (le_refl ms) hbr.1, ?_, ?_⟩
      · have := hbr.2.2
        -- img.height * ms ≤ max 1 R * img.width + img.width
        calc ms * img.height = img.height * ms := Nat.mul_comm _ _
          _ ≤ max 1 (roundNearestDiv (img.height * ms) img.width) * img.width +
                img.width := hbr.2.2
          _ = img.width * max 1 (roundNearestDiv (img.height * ms) img.width) +
                img.width := by ring
      · have := hbr.2.1
        calc img.width * max 1 (roundNearestDiv (img.height * ms) img.width) =
              max 1 (roundNearestDiv (img.height * ms) img.width) * img.width := by ring
          _ ≤ img.height * ms + img.width := hbr.2.1
          _ = ms * img.height + img.width := by ring
  · intro hsmall
    rw [if_neg (by omega)]
    exact ⟨hwd, hhd⟩

theorem optimize_resize_policy_witness :
    max (normalizedImage ⟨2048, 1024, ImgMode.RGB, false⟩ 1024).width
      (normalizedImage ⟨2048, 1024, ImgMode.RGB, false⟩ 1024).height ≤ 1024 := by
  exact ((optimize_resize_policy ⟨2048, 1024, ImgMode.RGB, false⟩ 1024
    (by decide) (by decide) (by decide)).1 (by decide)).1

/-- C5: whenever decoding or any later processing step raises inside
optimize_image_for_upload, the function returns exactly the original
input bytes instead of propagating the error. -/
theorem optimize_fallback (ops : PilOps) (image_data : List Nat) (ms : Nat) :
    (∀ e, ops.decode image_data = .error e →
      optimize_image_for_upload ops image_data ms = image_data) ∧
    (∀ e, optimizeCore ops image_data ms = .error e →
      optimize_image_for_upload ops image_data ms = image_data) := by
  constructor
  · intro e h
    unfold optimize_image_for_upload optimizeCore
    rw [h]
  · intro e h
    unfold optimize_image_for_upload
    rw [h]

theorem optimize_fallback_witness :
    optimize_image_for_upload
      { decode := fun _ => .error .cannotIdentify
      , encode := fun _ _ => .error .saveError } [7, 7, 7] 1024 = [7, 7, 7] := by
  exact (optimize_fallback
    { decode := fun _ => .error .cannotIdentify
    , encode := fun _ _ => .error .saveError } [7, 7, 7] 1024).1 .cannotIdentify rfl

theorem monitorLoop_succ_ok_terminal (tid : String) (evs : Nat → RemoteEvent)
    (fuel i : Nat) (store : Store) (r : TaskResponse)
    (ho : get_task_status tid (evs i) = .ok r) (ht : isTerminal r.status = true) :
    monitorLoop true tid evs (fuel + 1) i store = (storePut store tid r, 1) := by
  simp [monitorLoop, ho, ht]

theorem monitorLoop_succ_ok_cont (tid : String) (evs : Nat → RemoteEvent)
    (fuel i : Nat) (store : Store) (r : TaskResponse)
    (ho : get_task_status tid (evs i) = .ok r) (ht : isTerminal r.status = false) :
    monitorLoop true tid evs (fuel + 1) i store =
      ((monitorLoop true tid evs fuel (i + 1) (storePut store tid r)).1,
       (monitorLoop true tid evs fuel (i + 1) (storePut store tid r)).2 + 1) := by
  simp [monitorLoop, ho, ht]

theorem monitorLoop_succ_err (tid : String) (evs : Nat → RemoteEvent)
    (fuel i : Nat) (store : Store) (e : ClientError)
    (ho : get_task_status tid (evs i) = .error e) :
    monitorLoop true tid evs (fuel + 1) i store =
      ((monitorLoop true tid evs fuel (i + 1) store).1,
       (monitorLoop true tid evs fuel (i + 1) store).2 + 1) := by
  simp [monitorLoop, ho]

theorem lookupStore_put (s : Store) (k : String) (v : TaskResponse) :
    lookupStore (storePut s k v) k = some v := by
  simp [storePut, lookupStore]

theorem monitorLoop_terminal (tid : String) (evs : Nat → RemoteEvent) (k : Nat) :
    ∀ fuel i store r, k < fuel →
    get_task_status tid (evs (i + k)) = .ok r →
    isTerminal r.status = true →
    (∀ j, j < k → isTerminalOutcome (get_task_status tid (evs (i + j))) = false) →
    (monitorLoop true tid evs fuel i store).2 = k + 1 ∧
    lookupStore (monitorLoop true tid evs fuel i store).1 tid = some r := by
  induction k with
  | zero =>
    intro fuel i store r hk hr hterm _hpre
    obtain ⟨f, rfl⟩ : ∃ f, fuel = f + 1 := ⟨fuel - 1, by omega⟩
    rw [Nat.add_zero] at hr
    rw [monitorLoop_succ_ok_terminal tid evs f i store r hr hterm]
    exact ⟨rfl, lookupStore_put store tid r⟩
  | succ k ih =>
    intro fuel i store r hk hr hterm hpre
    obtain ⟨f, rfl⟩ : ∃ f, fuel = f + 1 := ⟨fuel - 1, by omega⟩
    have hr1 : get_task_status tid (evs (i + 1 + k)) = .ok r := by
      rwa [show i + 1 + k = i + (k + 1) by omega]
    have hpre1 : ∀ j, j < k →
        isTerminalOutcome (get_task_status tid (evs (i + 1 + j))) = false := by
      intro j hj
      have := hpre (j + 1) (by omega)
      rwa [show i + (j + 1) = i + 1 + j by omega] at this
    cases ho : get_task_status tid (evs i) with
    | ok r0 =>
      have h0 := hpre 0 (by omega)
      rw [Nat.add_zero, ho] at h0
      have hnt : isTerminal r0.status = false := by
        simpa [isTerminalOutcome] using h0
      rw [monitorLoop_succ_ok_cont tid evs f i store r0 ho hnt]
      have ihh := ih f (i + 1) (storePut store tid r0) r (by omega) hr1 hterm hpre1
      exact ⟨by rw [ihh.1], ihh.2⟩
    | error e =>
      rw [monitorLoop_succ_err tid evs f i store e ho]
      have ihh := ih f (i + 1) store r (by omega) hr1 hterm hpre1
      exact ⟨by rw [ihh.1], ihh.2⟩

/-- C2: when the k-th poll (k within the 120-attempt budget) is the
first to observe a terminal snapshot, the background poller issues
exactly k + 1 status queries — none after that observation — and
task_storage holds that terminal snapshot for the task id. -/
theorem monitor_stops_at_terminal (tid : String) (evs : Nat → RemoteEvent)
    (store : Store) (k : Nat) (r : TaskResponse)
    (hk : k < 120)
    (hr : get_task_status tid (evs k) = .ok r)
    (hterm : isTerminal r.status = true)
    (hpre : ∀ j, j < k → isTerminalOutcome (get_task_status tid (evs j)) = false) :
    (monitor_task_progress true tid evs store).2 = k + 1 ∧
    lookupStore (monitor_task_progress true tid evs store).1 tid = some r := by
  exact monitorLoop_terminal tid evs k 120 0 store r hk (by simpa using hr) hterm
    (fun j hj => by simpa using hpre j hj)

theorem monitor_stops_at_terminal_witness :
    (monitor_task_progress true "t"
      (fun i =>
        if i = 0 then .resp 200 (.jobj [("data", .jobj [("status", .jstr "queued")])])
        else if i = 1 then .resp 200 (.jobj [("data", .jobj [("status", .jstr "running")])])
        else .resp 200 (.jobj [("data", .jobj [("status", .jstr "success")])])) []).2 = 3 ∧
    lookupStore (monitor_task_progress true "t"
      (fun i =>
        if i = 0 then .resp 200 (.jobj [("data", .jobj [("status", .jstr "queued")])])
        else if i = 1 then .resp 200 (.jobj [("data", .jobj [("status", .jstr "running")])])
        else .resp 200 (.jobj [("data", .jobj [("status", .jstr "success")])])) []).1 "t" =
      some { task_id := "t", status := .success, input := none, output := none
           , progress := none, created_time := none } := by
  exact monitor_stops_at_terminal "t" _ [] 2
    { task_id := "t", status := .success, input := none, output := none
    , progress := none, created_time := none }
    (by omega) rfl rfl
    (by intro j hj; interval_cases j <;> rfl)

theorem monitorLoop_queries_le (cfg : Bool) (tid : String) (evs : Nat → RemoteEvent) :
    ∀ fuel i store, (monitorLoop cfg tid evs fuel i store).2 ≤ fuel := by
  intro fuel
  induction fuel with
  | zero => intro i store; exact Nat.le_refl 0
  | succ f ih =>
    intro i store
    by_cases hc : cfg = true
    · subst hc
      cases ho : get_task_status tid (evs i) with
      | ok r =>
        by_cases ht : isTerminal r.status = true
        · rw [monitorLoop_succ_ok_terminal tid evs f i store r ho ht]
          omega
        · rw [monitorLoop_succ_ok_cont tid evs f i store r ho
            (by simpa using ht)]
          have := ih (i + 1) (storePut store tid r)
          simpa using Nat.add_le_add_right this 1
      | error e =>
        rw [monitorLoop_succ_err tid evs f i store e ho]
        have := ih (i + 1) store
        simpa using Nat.add_le_add_right this 1
    · replace hc : cfg = false := by cases cfg <;> simp_all
      subst hc
      simp [monitorLoop]

theorem monitorLoop_no_terminal (tid : String) (evs : Nat → RemoteEvent) :
    ∀ fuel i store,
    (∀ j, j < fuel → isTerminalOutcome (get_task_status tid (evs (i + j))) = false) →
    monitorLoop true tid evs fuel i store = (applyPolls tid evs i fuel store, fuel) := by
  intro fuel
  induction fuel with
  | zero => intro i store _; rfl
  | succ f ih =>
    intro i store hpre
    have hpre1 : ∀ j, j < f →
        isTerminalOutcome (get_task_status tid (evs (i + 1 + j))) = false := by
      intro j hj
      have := hpre (j + 1) (by omega)
      rwa [show i + (j + 1) = i + 1 + j by omega] at this
    have h0 := hpre 0 (by omega)
    rw [Nat.add_zero] at h0
    cases ho : get_task_status tid (evs i) with
    | ok r =>
      rw [ho] at h0
      have hnt : isTerminal r.status = false := by simpa [isTerminalOutcome] using h0
      rw [monitorLoop_succ_ok_cont tid evs f i store r ho hnt]
      rw [ih (i + 1) (storePut store tid r) hpre1]
      simp [applyPolls, pollWrite, ho]
    | error e =>
      rw [monitorLoop_succ_err tid evs f i store e ho]
      rw [ih (i + 1) store hpre1]
      simp [applyPolls, pollWrite, ho]

theorem applyPolls_lastWrite (tid : String) (evs : Nat → RemoteEvent) :
    ∀ fuel i store,
    (∀ j, j < fuel → isTerminalOutcome (get_task_status tid (evs (i + j))) = false) →
    ∀ r, lookupStore (applyPolls tid evs i fuel store) tid = some r →
      isTerminal r.status = false ∨ lookupStore store tid = some r := by
  intro fuel
  induction fuel with
  | zero => intro i store _ r h; exact Or.inr h
  | succ f ih =>
    intro i store hpre r h
    have hpre1 : ∀ j, j < f →
        isTerminalOutcome (get_task_status tid (evs (i + 1 + j))) = false := by
      intro j hj
      have := hpre (j + 1) (by omega)
      rwa [show i + (j + 1) = i + 1 + j by omega] at this
    have hstep : applyPolls tid evs i (f + 1) store =
        applyPolls tid evs (i + 1) f
          (pollWrite tid store (get_task_status tid (evs i))) := rfl
    rw [hstep] at h
    rcases ih (i + 1) (pollWrite tid store (get_task_status tid (evs i))) hpre1 r h with
      hnt | hlk
    · exact Or.inl hnt
    · have h0 := hpre 0 (by omega)
      rw [Nat.add_zero] at h0
      cases ho : get_task_status tid (evs i) with
      | ok r0 =>
        rw [ho] at hlk h0
        simp [pollWrite, storePut, lookupStore] at hlk
        subst hlk
        exact Or.inl (by simpa [isTerminalOutcome] using h0)
      | error e =>
        rw [ho] at hlk
        simpa [pollWrite] using Or.inr hlk

/-- C4: the background poller issues at most 120 status queries in any
run, also when individual attempts raise (each swallowed error consumes
one attempt); and when no terminal status is observed within the
120-attempt budget, the loop stops after exactly 120 queries with
task_storage equal to the initial storage overwritten by exactly the
observed snapshots in order — in particular the entry for the task is
either its pre-existing snapshot or one of the observed non-terminal
snapshots, and no failure status is synthesized. -/
theorem monitor_bounded_attempts (tid : String) (evs : Nat → RemoteEvent)
    (store : Store) :
    (∀ cfg, (monitor_task_progress cfg tid evs store).2 ≤ 120) ∧
    ((∀ j, j < 120 → isTerminalOutcome (get_task_status tid (evs j)) = false) →
      monitor_task_progress true tid evs store = (applyPolls tid evs 0 120 store, 120) ∧
      (∀ r, lookupStore (applyPolls tid evs 0 120 store) tid = some r →
        isTerminal r.status = false ∨ lookupStore store tid = some r)) := by
  constructor
  · intro cfg
    exact monitorLoop_queries_le cfg tid evs 120 0 store
  · intro hpre
    constructor
    · exact monitorLoop_no_terminal tid evs 120 0 store
        (fun j hj => by simpa using hpre j hj)
    · exact applyPolls_lastWrite tid evs 120 0 store
        (fun j hj => by simpa using hpre j hj)

theorem monitor_bounded_attempts_witness :
    monitor_task_progress true "t" (fun _ => RemoteEvent.netErr) [] = ([], 120) := by
  have h := ((monitor_bounded_attempts "t" (fun _ => RemoteEvent.netErr) []).2
    (fun j hj => rfl)).1
  rw [h]
  rfl

theorem parseTaskData_task_id (tid : String) (data : JVal) (r : TaskResponse)
    (h : parseTaskData tid data = .ok r) : r.task_id = tid := by
  unfold parseTaskData at h
  split at h
  · exact Except.noConfusion h
  · split at h
    · exact Except.noConfusion h
    · injection h with h2
      rw [← h2]

theorem parse_task_id (tid : String) (body : JVal) (r : TaskResponse)
    (h : parseTaskStatusResponse tid body = .ok r) : r.task_id = tid := by
  cases body with
  | jobj fields =>
    simp only [parseTaskStatusResponse] at h
    split at h
    · exact Except.noConfusion h
    · exact parseTaskData_task_id _ _ _ h
  | jstr s => exact Except.noConfusion h
  | jnum n => exact Except.noConfusion h
  | jbool b => exact Except.noConfusion h
  | jnull => exact Except.noConfusion h
  | jarr xs => exact Except.noConfusion h

theorem get_task_status_task_id (tid : String) (ev : RemoteEvent) (r : TaskResponse)
    (h : get_task_status tid ev = .ok r) : r.task_id = tid := by
  cases ev with
  | timeout => exact Except.noConfusion h
  | netErr => exact Except.noConfusion h
  | resp code body =>
    simp only [get_task_status] at h
    by_cases hc : code = 200
    · rw [if_pos hc] at h
      exact parse_task_id tid body r h
    · rw [if_neg hc] at h
      exact Except.noConfusion h

theorem storeInv_put (s : Store) (k : String) (v : TaskResponse)
    (hs : storeInv s) (hv : v.task_id = k) : storeInv (storePut s k v) := by
  intro p hp
  rcases List.mem_cons.mp hp with h1 | h2
  · subst h1
    exact hv
  · exact hs p h2

theorem monitorLoop_inv (cfg : Bool) (tid : String) (evs : Nat → RemoteEvent) :
    ∀ fuel i store, storeInv store → storeInv (monitorLoop cfg tid evs fuel i store).1 := by
  intro fuel
  induction fuel with
  | zero => intro i store hs; exact hs
  | succ f ih =>
    intro i store hs
    by_cases hc : cfg = true
    · subst hc
      cases ho : get_task_status tid (evs i) with
      | ok r =>
        have hid := get_task_status_task_id tid (evs i) r ho
        by_cases ht : isTerminal r.status = true
        · rw [monitorLoop_succ_ok_terminal tid evs f i store r ho ht]
          exact storeInv_put store tid r hs hid
        · rw [monitorLoop_succ_ok_cont tid evs f i store r ho (by simpa using ht)]
          exact ih (i + 1) (storePut store tid r) (storeInv_put store tid r hs hid)
      | error e =>
        rw [monitorLoop_succ_err tid evs f i store e ho]
        exact ih (i + 1) store hs
    · replace hc : cfg = false := by cases cfg <;> simp_all
      subst hc
      simpa [monitorLoop] using hs

/-- C10: after any sequence of submit, synchronous status-query, and
background-poll operations, every entry of task_storage satisfies
snapshot.task_id = key — each write uses the snapshot's own task id as
the key. -/
theorem task_storage_key_invariant (ops : List TrackerOp) (store : Store)
    (h : storeInv store) : storeInv (applyTrackerOps ops store) := by
  induction ops generalizing store with
  | nil => exact h
  | cons op rest ih =>
    rw [applyTrackerOps, List.foldl_cons]
    apply ih
    cases op with
    | submit tid now =>
      exact storeInv_put store tid (submitSnapshot tid now) h rfl
    | statusEndpoint tid ev =>
      simp only [applyTrackerOp, get_task_status_endpoint]
      cases ho : get_task_status tid ev with
      | ok r =>
        simp only
        exact storeInv_put store tid r h (get_task_status_task_id tid ev r ho)
      | error e => exact h
    | backgroundPoll tid evs =>
      exact monitorLoop_inv true tid evs 120 0 store h

theorem task_storage_key_invariant_witness :
    storeInv (applyTrackerOps
      [ TrackerOp.submit "a" 5
      , TrackerOp.statusEndpoint "a"
          (.resp 200 (.jobj [("data", .jobj [("status", .jstr "running")])]))
      , TrackerOp.backgroundPoll "b" (fun _ => RemoteEvent.netErr) ] []) := by
  exact task_storage_key_invariant _ [] (by intro p hp; exact (List.not_mem_nil p hp).elim)

theorem jIndex_ok_hasKey (v : JVal) (k : String) (m : JVal)
    (h : jIndex v k = .ok m) : jHasKey v k = true := by
  cases v with
  | jobj fields =>
    simp only [jIndex] at h
    simp only [jHasKey]
    cases hl : lookupJ fields k with
    | none =>
      rw [hl] at h
      exact Except.noConfusion h
    | some x => rfl
  | jstr s => exact Except.noConfusion h
  | jnum n => exact Except.noConfusion h
  | jbool b => exact Except.noConfusion h
  | jnull => exact Except.noConfusion h
  | jarr xs => exact Except.noConfusion h

/-- C7: for a download request whose fresh status fetch yields a
snapshot, the handler returns 400 carrying the current status when the
status is not success; 404 when the output is absent or holds no model
entry; and 400 listing the actually available format keys when the
requested format is missing from the model urls mapping. -/
theorem download_error_paths (tid fmt : String) (ev : RemoteEvent) (tr : TaskResponse)
    (hfetch : get_task_status tid ev = .ok tr) :
    (tr.status ≠ .success →
      download_3d_model tid fmt ev =
        .error (.httpExc 400 (.taskNotCompleted tr.status))) ∧
    (tr.status = .success → tr.output = none →
      download_3d_model tid fmt ev = .error (.httpExc 404 .modelNotFound)) ∧
    (∀ out, tr.status = .success → tr.output = some out →
      jHasKey out "model" = false →
      download_3d_model tid fmt ev = .error (.httpExc 404 .modelNotFound)) ∧
    (∀ out m ufields, tr.status = .success → tr.output = some out →
      jIndex out "model" = .ok m → jIndex m "urls" = .ok (.jobj ufields) →
      lookupJ ufields fmt = none →
      download_3d_model tid fmt ev =
        .error (.httpExc 400
          (.formatNotAvailable fmt (ufields.map (fun p => p.1))))) := by
  refine ⟨?_, ?_, ?_, ?_⟩
  · intro hns
    simp [download_3d_model, hfetch, hns]
  · intro hs hout
    simp [download_3d_model, hfetch, hs, hout]
  · intro out hs hout hnk
    simp [download_3d_model, hfetch, hs, hout, hnk]
  · intro out m ufields hs hout hm hurls hfmt
    have hk : jHasKey out "model" = true := jIndex_ok_hasKey out "model" m hm
    simp [download_3d_model, hfetch, hs, hout, hk, hm, hurls, hfmt]

theorem download_error_paths_witness :
    download_3d_model "t" "obj"
      (.resp 200 (.jobj [("data", .jobj
        [ ("status", .jstr "success")
        , ("output", .jobj [("model", .jobj [("urls", .jobj [("glb", .jstr "u")])])])])])) =
      .error (.httpExc 400 (.formatNotAvailable "obj" ["glb"])) ∧
    download_3d_model "t" "glb"
      (.resp 200 (.jobj [("data", .jobj [("status", .jstr "running")])])) =
      .error (.httpExc 400 (.taskNotCompleted .running)) := by
  constructor
  · exact (download_error_paths "t" "obj"
      (.resp 200 (.jobj [("data", .jobj
        [ ("status", .jstr "success")
        , ("output", .jobj [("model", .jobj [("urls", .jobj [("glb", .jstr "u")])])])])]))
      { task_id := "t", status := .success, input := none
      , output := some (.jobj [("model", .jobj [("urls", .jobj [("glb", .jstr "u")])])])
      , progress := none, created_time := none } rfl).2.2.2
      (.jobj [("model", .jobj [("urls", .jobj [("glb", .jstr "u")])])])
      (.jobj [("urls", .jobj [("glb", .jstr "u")])])
      [("glb", .jstr "u")] rfl rfl rfl rfl rfl
  · exact (download_error_paths "t" "glb"
      (.resp 200 (.jobj [("data", .jobj [("status", .jstr "running")])]))
      { task_id := "t", status := .running, input := none, output := none
      , progress := none, created_time := none } rfl).1 (by decide)
